import Mathlib

/-!
Shallow embedding of the authentication/session/token core of the
bugkhoji backend (TypeScript/Express/Prisma), together with proofs about
the properties its specification claims.

Modelling conventions:
- Time is a single abstract `Nat` clock (`now`).  The source mixes JWT
  seconds and JavaScript `Date` milliseconds; within every comparison the
  source is consistent, so one abstract clock is faithful.
- A signed JWT is idealized as its payload together with the signing
  secret: `jwt.sign` is deterministic and injective on (payload, secret),
  and `jwt.verify` succeeds exactly when the secret matches and the token
  is not past its `exp` claim.
- bcrypt (the `bcryptjs` package) truncates its input at 72 bytes.  A
  signed JWT is `base64url(header).base64url(payloadJson).signature`; the
  header is the fixed 36-byte `eyJhbGciOiJIUzI1NiIsInR5cCI6IkpXVCJ9`, so
  with the dot the 72-byte window leaves 35 base64 characters of payload
  — the first 26 payload bytes (plus two bits of byte 27, which we
  conservatively drop).  `bcrypt.compare(t, h)` is therefore true exactly
  when `h` was produced by hashing a token whose first 26 payload-JSON
  bytes are those of `t` — the `iat`/`exp` claims (byte 33 onward for the
  payload shapes this code signs) and the signature never participate.
  We model the digest as that 26-byte window (`bcryptSeen`); salted
  digests differ as strings but compare equal against the same window,
  and collisions between distinct windows are ignored.
- Databases are association lists of user and session records; Prisma
  `update` on a missing row throws, modelled by `Option`.
-/

namespace BugKhoji

/-- The `UserRole` enum of `prisma/schema.prisma`. -/
inductive UserRole where
  | RESEARCHER
  | ORGANIZATION
  | ADMIN
deriving DecidableEq, Repr

/-- A JWT claims object: the union of the fields the source puts in
access-token payloads (`id`, `role`, `type`, `sessionId`, `iat`) and
refresh-token payloads (`id`, `type`, `iat`), plus the `exp` claim added
by `jwt.sign`'s `expiresIn` option.  Fields a given token kind does not
carry are `none`; the field order mirrors the key order of the payload
object literals in the source (JSON.stringify preserves insertion
order). -/
structure JwtPayload where
  id : String
  role : Option UserRole := none
  type : Option String := none
  sessionId : Option String := none
  iat : Nat := 0
  exp : Nat := 0
deriving DecidableEq, Repr

/-- An idealized signed JWT: the claims plus the secret it was signed
with.  `jwt.sign` is deterministic, so a token string is determined by
(payload, secret); we identify the string with this pair. -/
structure Jwt where
  payload : JwtPayload
  secret : String
deriving DecidableEq, Repr

/-- `jwt.decode`: read the claims without verifying the signature. -/
def jwtDecode (t : Jwt) : JwtPayload := t.payload

/-- `jwt.verify(token, secret)`: succeeds iff the signature matches
(`t.secret = secret`) and the token is not expired (jsonwebtoken throws
`TokenExpiredError` when the clock has reached `exp`). -/
def jwtVerify (t : Jwt) (secret : String) (now : Nat) : Option JwtPayload :=
  if t.secret = secret ∧ now < t.payload.exp then some t.payload else none

/-- JSON spelling of a `UserRole` value. -/
def roleName : UserRole → String
  | .RESEARCHER => "RESEARCHER"
  | .ORGANIZATION => "ORGANIZATION"
  | .ADMIN => "ADMIN"

/-- Serialized `role` field (with its trailing comma) when present. -/
def roleJson : Option UserRole → String
  | none => ""
  | some r => "\"role\":\"" ++ (roleName r ++ "\",")

/-- Serialized `type` field (with its trailing comma) when present. -/
def typeJson : Option String → String
  | none => ""
  | some ty => "\"type\":\"" ++ (ty ++ "\",")

/-- Serialized `sessionId` field (with its trailing comma) when
present. -/
def sessionJson : Option String → String
  | none => ""
  | some sid => "\"sessionId\":\"" ++ (sid ++ "\",")

/-- The payload JSON exactly as `jwt.sign` serializes the payload object
literals of this code: keys in insertion order — `id`, then `role`,
`type`, `sessionId` when present, then `iat` and the appended `exp`.
For a refresh token this is
`\x7b"id":"<uid>","type":"refresh","iat":<n>,"exp":<m>\x7d`. -/
def payloadJson (p : JwtPayload) : String :=
  "\x7b\"id\":\"" ++ (p.id ++ ("\"," ++
    (roleJson p.role ++ (typeJson p.type ++ (sessionJson p.sessionId ++
      ("\"iat\":" ++ (Nat.repr p.iat ++ (",\"exp\":" ++ (Nat.repr p.exp ++ "\x7d")))))))))

/-- The part of the token string that bcrypt actually processes: of the
72-byte window, 37 bytes are the fixed JOSE header plus the dot, and the
remaining 35 base64 characters cover the first 26 bytes of the payload
JSON (the two extra bits of byte 27 are conservatively dropped).  The
header and the signing secret contribute nothing that varies, so the
window is determined by this prefix. -/
def bcryptSeen (t : Jwt) : List Char :=
  (payloadJson t.payload).data.take 26

/-- An idealized bcrypt digest of a token string: what survives of the
token inside the digest is exactly the 72-byte window `bcryptSeen`
(see the header comment). -/
structure TokenDigest where
  seen : List Char
deriving DecidableEq, Repr

/-- `bcrypt.hash(tokenString, 10)`, up to the salt (which `compare`
abstracts away). -/
def bcryptHashToken (t : Jwt) : TokenDigest :=
  ⟨bcryptSeen t⟩

/-- `bcrypt.compare(tokenString, digest)` for token digests: true exactly
when the 72-byte windows agree. -/
def bcryptCompare (t : Jwt) (h : TokenDigest) : Bool :=
  bcryptSeen t == h.seen

/-- An idealized bcrypt digest of a password (the stored
`passwordHash`). -/
def bcryptHashPw (plain : String) : String :=
  "bcrypt$" ++ plain

/-- `bcrypt.compare(password, passwordHash)`. -/
def bcryptComparePw (plain digest : String) : Bool :=
  digest == bcryptHashPw plain

/-- The columns of the `users` table that the authentication core reads
or writes (`prisma/schema.prisma`, model `User`). -/
structure User where
  id : String
  email : String
  role : UserRole
  username : Option String := none
  passwordHash : Option String := none
  isActive : Bool := true
  lastLogin : Option Nat := none
  refreshTokenHash : Option TokenDigest := none
  refreshTokenExpiresAt : Option Nat := none
deriving DecidableEq, Repr

/-- Advisory device/request metadata stored on a session row.  It is
never security-relevant; the handlers copy it through unchanged. -/
structure SessionMeta where
  userAgent : String := ""
  ipAddress : String := ""
  deviceOS : String := ""
  deviceBrowser : String := ""
  deviceType : String := ""
  location : String := ""
deriving DecidableEq, Repr

/-- The `sessions` table (`prisma/schema.prisma`, model `Session`). -/
structure Session where
  id : String
  userId : String
  meta : SessionMeta := {}
  isActive : Bool := true
  createdAt : Nat := 0
  lastSeen : Nat := 0
  expiresAt : Nat
deriving DecidableEq, Repr

/-- The persisted state the core touches: user rows and session rows. -/
structure Db where
  users : List User
  sessions : List Session
deriving DecidableEq, Repr

/-- `prisma.user.findUnique({ where: { id } })`. -/
def findUserById (db : Db) (id : String) : Option User :=
  db.users.find? (fun u => u.id == id)

/-- `prisma.user.findUnique({ where: { email } })`. -/
def findUserByEmail (db : Db) (email : String) : Option User :=
  db.users.find? (fun u => u.email == email)

/-- `prisma.session.findUnique({ where: { id } })`. -/
def findSessionById (db : Db) (id : String) : Option Session :=
  db.sessions.find? (fun s => s.id == id)

/-- `prisma.user.update({ where: { id } , data })`, as the pure rewrite
of the matching row (the caller handles the missing-row throw). -/
def updateUserRow (db : Db) (id : String) (f : User → User) : Db :=
  { db with users := db.users.map (fun u => if u.id == id then f u else u) }

/-- `prisma.session.update({ where: { id }, data })`, as the pure rewrite
of the matching row. -/
def updateSessionRow (db : Db) (id : String) (f : Session → Session) : Db :=
  { db with sessions := db.sessions.map (fun s => if s.id == id then f s else s) }

/-- Access-token TTL: `expiresIn = "1h"` in `generateAccessToken`. -/
def accessTtl : Nat := 60 * 60

/-- Refresh-token TTL: `expiresIn = "7d"` / `7 * 24 * 60 * 60 * 1000` ms
in `generateRefreshToken`. -/
def refreshTtl : Nat := 7 * 24 * 60 * 60

/-- Session lifetime: `expiresAt: new Date(Date.now() + 7 * 24 * 60 * 60
* 1000)` at session creation. -/
def sessionTtl : Nat := 7 * 24 * 60 * 60

/-- `generateAccessToken` (token utils): signs
`{ id, role, type: "access", sessionId, iat }` with a 1-hour expiry. -/
def generateAccessToken (secret : String) (now : Nat)
    (id : String) (role : UserRole) (sessionId : Option String) : Jwt :=
  { payload :=
      { id := id
        role := some role
        type := some "access"
        sessionId := sessionId
        iat := now
        exp := now + accessTtl }
    secret := secret }

/-- `verifyAccessToken` (token utils): `jwt.verify` then reject when
`decoded.type !== "access"`.  Every throw is collapsed to `none`. -/
def verifyAccessToken (secret : String) (now : Nat) (token : Jwt) :
    Option JwtPayload :=
  match jwtVerify token secret now with
  | none => none
  | some decoded =>
      if decoded.type = some "access" then some decoded else none

/-- The refresh-token payload built by `generateRefreshToken`:
`{ id: userId, type: "refresh", iat }` — note that it carries **no**
session id. -/
def mkRefreshJwt (secret : String) (now : Nat) (userId : String) : Jwt :=
  { payload :=
      { id := userId
        type := some "refresh"
        iat := now
        exp := now + refreshTtl }
    secret := secret }

/-- `generateRefreshToken(userId, sessionId)` (token utils,
`src/unnamed/part_004` lines 267–307): signs a 7-day refresh token for
`userId`, hashes the token string, and overwrites the user row's
`refreshTokenHash` / `refreshTokenExpiresAt`.  The `sessionId` argument
is accepted but the payload and the stored row do not mention it.
Returns `none` when the Prisma update throws (user row absent). -/
def generateRefreshToken (db : Db) (secret : String) (now : Nat)
    (userId : String) (sessionId : String) : Option (Jwt × Nat × Db) :=
  let token := mkRefreshJwt secret now userId
  let expiresAt := now + refreshTtl
  match findUserById db userId with
  | none => none
  | some _ =>
      some (token, expiresAt,
        updateUserRow db userId (fun u =>
          { u with
            refreshTokenHash := some (bcryptHashToken token)
            refreshTokenExpiresAt := some expiresAt }))

/-- `user.refreshTokenExpiresAt && user.refreshTokenExpiresAt < new
Date()`: the persisted-expiry test inside `verifyRefreshToken`. -/
def persistedExpired (stored : Option Nat) (now : Nat) : Bool :=
  match stored with
  | none => false
  | some e => decide (e < now)

/-- `verifyRefreshToken(token, userId, sessionId)` (token utils,
`src/unnamed/part_004` lines 313–352; the `src/unnamed/part_007` variant
differs only in logging and input null-checks): verify the JWT, reject
when `decoded.id !== userId || decoded.type !== "refresh"`, load the user
row, reject when the row, its stored hash, or its active flag is missing,
reject when the persisted expiry has passed, then bcrypt-compare the
presented token against the stored hash.  The `sessionId` parameter is
never read. -/
def verifyRefreshToken (db : Db) (secret : String) (now : Nat)
    (token : Jwt) (userId : String) (sessionId : String) : Bool :=
  match jwtVerify token secret now with
  | none => false
  | some decoded =>
      if decoded.id ≠ userId ∨ decoded.type ≠ some "refresh" then false
      else
        match findUserById db userId with
        | none => false
        | some user =>
            match user.refreshTokenHash with
            | none => false
            | some storedHash =>
                if ¬ user.isActive then false
                else if persistedExpired user.refreshTokenExpiresAt now then false
                else bcryptCompare token storedHash

/-- `invalidateRefreshToken(userId, sessionId)` (token utils): clears the
stored hash and expiry on the user row; `none` when the Prisma update
throws (user row absent).  The `sessionId` argument is unused. -/
def invalidateRefreshToken (db : Db) (userId : String) (sessionId : String) :
    Option Db :=
  match findUserById db userId with
  | none => none
  | some _ =>
      some (updateUserRow db userId (fun u =>
        { u with refreshTokenHash := none, refreshTokenExpiresAt := none }))

/-- Outcome of the `authenticateToken` middleware
(`src/middleware/authenticateToken.ts`): a 401 JSON rejection, or
`next()` with `req.user` set to the resolved identity. -/
inductive TokenAuthResult where
  | reject (status : Nat) (error : String)
  | allow (id : String) (email : String) (role : UserRole)
      (sessionId : Option String)
deriving DecidableEq, Repr

/-- The live-session test inside `authenticateToken`: the session row
exists, `isActive`, and `expiresAt` has not passed (`session.expiresAt <
new Date()` rejects). -/
def sessionStillLive (db : Db) (sid : String) (now : Nat) : Bool :=
  match findSessionById db sid with
  | none => false
  | some s => s.isActive && decide (now ≤ s.expiresAt)

/-- `authenticateToken` (`src/middleware/authenticateToken.ts` lines
14–72): take the token from the `accessToken` cookie, else from the
`Authorization: Bearer` header; `jwt.verify` it (any throw → 401); when
the decoded payload carries a `sessionId`, reject unless that session is
live; load the user row and reject when absent or inactive; else attach
the identity.  Note the middleware never inspects `decoded.type`. -/
def authenticateToken (db : Db) (secret : String) (now : Nat)
    (cookieToken headerToken : Option Jwt) : TokenAuthResult :=
  match cookieToken.or headerToken with
  | none => .reject 401 "No authentication token found in cookies"
  | some token =>
      match jwtVerify token secret now with
      | none => .reject 401 "Invalid or expired token"
      | some decoded =>
          let sessionOk :=
            match decoded.sessionId with
            | none => true
            | some sid => sessionStillLive db sid now
          if !sessionOk then .reject 401 "Session expired or invalid"
          else
            match findUserById db decoded.id with
            | none => .reject 401 "User not found or inactive"
            | some user =>
                if ¬ user.isActive then .reject 401 "User not found or inactive"
                else .allow user.id user.email user.role decoded.sessionId

/-- Outcome of the `authenticate` middleware
(`src/middleware/authenticate.ts`): a 401 JSON rejection, or `next()`
with `req.user` set to the raw decoded payload. -/
inductive MwDecision where
  | reject (status : Nat) (message : String)
  | next (user : JwtPayload)
deriving DecidableEq, Repr

/-- `authenticate` (`src/middleware/authenticate.ts` lines 4–19): take
the bearer token from the `Authorization` header, `jwt.verify` it, and
pass the decoded payload through.  It consults no store: neither the
session nor the user row is loaded, and `decoded.type` is not checked. -/
def authenticate (secret : String) (now : Nat) (headerToken : Option Jwt) :
    MwDecision :=
  match headerToken with
  | none => .reject 401 "No token provided"
  | some token =>
      match jwtVerify token secret now with
      | none => .reject 401 "Invalid token"
      | some decoded => .next decoded

/-- Outcome of a login handler: an error JSON `{ error }` with a status,
or a 200 body carrying the access token and the created session id. -/
inductive LoginOutcome where
  | failure (status : Nat) (error : String)
  | success (accessToken : Jwt) (sessionId : String)
deriving DecidableEq, Repr

/-- The role-checking `login` controller (`src/unnamed/part_001` lines
236–395): the route wrapper has set `userType`; reject unknown email,
role mismatch, inactive account (with the ORGANIZATION pending-approval
special case), missing password hash, or a failed bcrypt comparison, all
as 401; on success update `lastLogin`, create a session row, and issue
the access/refresh pair bound to it.

`newSessionId` stands for the freshly drawn `uuidv4()` (the source then
coerces it with `+sessionId` into the numeric-id schema variant; we keep
the allocated identifier abstract).  Audit-log writes go to the external
sink and are not part of the state. -/
def loginWithRole (db : Db) (secret : String) (now : Nat)
    (email password : String) (userType : UserRole)
    (newSessionId : String) (meta : SessionMeta) : LoginOutcome × Db :=
  match findUserByEmail db email with
  | none => (.failure 401 "Invalid email or password", db)
  | some user =>
      if user.role ≠ userType then
        (.failure 401 "Invalid email or password", db)
      else if user.role = .ORGANIZATION ∧ ¬ user.isActive then
        (.failure 401 "Account pending activation. Please wait for admin approval.", db)
      else if user.role ≠ .ORGANIZATION ∧ ¬ user.isActive then
        (.failure 401 "Account is inactive", db)
      else
        match user.passwordHash with
        | none => (.failure 401 "Invalid email or password", db)
        | some ph =>
            if ¬ bcryptComparePw password ph then
              (.failure 401 "Invalid email or password", db)
            else
              let db1 := updateUserRow db user.id
                (fun u => { u with lastLogin := some now })
              let sess : Session :=
                { id := newSessionId
                  userId := user.id
                  meta := meta
                  isActive := true
                  createdAt := now
                  lastSeen := now
                  expiresAt := now + sessionTtl }
              let db2 : Db := { db1 with sessions := db1.sessions ++ [sess] }
              let accessToken :=
                generateAccessToken secret now user.id user.role (some sess.id)
              match generateRefreshToken db2 secret now user.id sess.id with
              | none => (.failure 500 "Server error during login", db2)
              | some (_, _, db3) => (.success accessToken sess.id, db3)

/-- The non-role-checking `login` controller
(`src/controllers/auth.controller.ts` lines 26–156): `userType` is
ignored; a missing user **and** an inactive user both yield the generic
`"Invalid credentials"`; there is no role check and no pending-approval
branch.  The success path is as in `loginWithRole`. -/
def loginPlain (db : Db) (secret : String) (now : Nat)
    (email password : String)
    (newSessionId : String) (meta : SessionMeta) : LoginOutcome × Db :=
  match findUserByEmail db email with
  | none => (.failure 401 "Invalid credentials", db)
  | some user =>
      if ¬ user.isActive then
        (.failure 401 "Invalid credentials", db)
      else
        match user.passwordHash with
        | none => (.failure 401 "Invalid credentials", db)
        | some ph =>
            if ¬ bcryptComparePw password ph then
              (.failure 401 "Invalid credentials", db)
            else
              let db1 := updateUserRow db user.id
                (fun u => { u with lastLogin := some now })
              let sess : Session :=
                { id := newSessionId
                  userId := user.id
                  meta := meta
                  isActive := true
                  createdAt := now
                  lastSeen := now
                  expiresAt := now + sessionTtl }
              let db2 : Db := { db1 with sessions := db1.sessions ++ [sess] }
              let accessToken :=
                generateAccessToken secret now user.id user.role (some sess.id)
              match generateRefreshToken db2 secret now user.id sess.id with
              | none => (.failure 500 "Server error during login", db2)
              | some (_, _, db3) => (.success accessToken sess.id, db3)

/-- Outcome of the `refreshToken` handler: an error JSON with a status,
or a 200 body carrying the new access token (the rotated refresh token
goes into the cookie). -/
inductive RefreshOutcome where
  | failure (status : Nat) (error : String)
  | success (accessToken : Jwt)
deriving DecidableEq, Repr

/-- The `refreshToken` handler (`src/controllers/auth.controller.ts`
lines 159–251): take the `refreshToken` cookie (absent → 401);
`jwt.decode` it and require `decoded.id` and `decoded.sessionId`
(missing → 401); load the session and reject unless live (401); call
`verifyRefreshToken` (false → 401); load the user and reject when absent
or inactive (401); then bump the session's `lastSeen`, issue a new
access/refresh pair for the same session, and return 200.

A present cookie is modelled as a structurally well-formed JWT, so the
"undecodable cookie" 401 is subsumed by the missing-claims 401.  The
falsiness test on `decoded.id` is the empty-string check. -/
def refreshTokenHandler (db : Db) (secret : String) (now : Nat)
    (cookie : Option Jwt) : RefreshOutcome × Db :=
  match cookie with
  | none => (.failure 401 "Refresh token not found", db)
  | some rt =>
      let decoded := jwtDecode rt
      if decoded.id = "" then (.failure 401 "Invalid refresh token", db)
      else
        match decoded.sessionId with
        | none => (.failure 401 "Invalid refresh token", db)
        | some sid =>
            match findSessionById db sid with
            | none => (.failure 401 "Session expired or invalid", db)
            | some sess =>
                if ¬ sess.isActive ∨ sess.expiresAt < now then
                  (.failure 401 "Session expired or invalid", db)
                else if ¬ verifyRefreshToken db secret now rt decoded.id sid then
                  (.failure 401 "Invalid refresh token", db)
                else
                  match findUserById db decoded.id with
                  | none => (.failure 401 "User not found or inactive", db)
                  | some user =>
                      if ¬ user.isActive then
                        (.failure 401 "User not found or inactive", db)
                      else
                        let db1 := updateSessionRow db sid
                          (fun s => { s with lastSeen := now })
                        let accessToken :=
                          generateAccessToken secret now user.id user.role (some sid)
                        match generateRefreshToken db1 secret now user.id sid with
                        | none => (.failure 400 "Failed to generate refresh token", db1)
                        | some (_, _, db2) => (.success accessToken, db2)

/-- The identity the middleware attached to the request
(`req.user?.id`, `req.user?.sessionId`) as the `logout` handler reads
it. -/
structure ReqUser where
  id : String
  sessionId : Option String := none
deriving DecidableEq, Repr

/-- Outcome of the `logout` handler. -/
inductive LogoutOutcome where
  | ok (status : Nat) (message : String)
  | err (status : Nat) (error : String)
deriving DecidableEq, Repr

/-- JavaScript truthiness of `userId && sessionId` in `logout`: both must
be present and non-empty strings for the mutation branch to run. -/
def hasIdentity (reqUser : Option ReqUser) : Bool :=
  match reqUser with
  | none => false
  | some u =>
      match u.sessionId with
      | none => false
      | some sid => u.id != "" && sid != ""

/-- The `logout` handler (`src/controllers/auth.controller.ts` lines
254–291): when the request context carries a user id and session id,
deactivate the session (`isActive := false`, `expiresAt := now`) and
clear the stored refresh hash; either Prisma update throwing lands in the
catch (500).  With no identity the mutation block is skipped.  In every
non-throwing path the refresh cookie is cleared and the handler returns
200 `{ message: "Logged out successfully" }`. -/
def logout (db : Db) (now : Nat) (reqUser : Option ReqUser) :
    LogoutOutcome × Db :=
  if hasIdentity reqUser then
    match reqUser with
    | none => (.ok 200 "Logged out successfully", db)
    | some u =>
        match u.sessionId with
        | none => (.ok 200 "Logged out successfully", db)
        | some sid =>
            match findSessionById db sid with
            | none => (.err 500 "Internal server error", db)
            | some _ =>
                let db1 := updateSessionRow db sid
                  (fun s => { s with isActive := false, expiresAt := now })
                match invalidateRefreshToken db1 u.id sid with
                | none => (.err 500 "Internal server error", db1)
                | some db2 => (.ok 200 "Logged out successfully", db2)
  else
    (.ok 200 "Logged out successfully", db)

/-! ### Concrete sample data used by witnesses and counterexamples -/

/-- A fixed signing secret for concrete scenarios. -/
def sampleSecret : String := "top-secret"

/-- A refresh token issued for user `u1` at time 1000. -/
def tRefresh : Jwt := mkRefreshJwt sampleSecret 1000 "u1"

/-- An active researcher whose currently stored refresh hash is the
digest of `tRefresh`. -/
def userActive : User :=
  { id := "u1"
    email := "res@test.com"
    role := .RESEARCHER
    passwordHash := some (bcryptHashPw "Abc12345!")
    isActive := true
    refreshTokenHash := some (bcryptHashToken tRefresh)
    refreshTokenExpiresAt := some (1000 + refreshTtl) }

/-- An organization account that has not been activated yet, with a
known password. -/
def userOrgInactive : User :=
  { id := "u2"
    email := "org@test.com"
    role := .ORGANIZATION
    passwordHash := some (bcryptHashPw "Orgpass1!")
    isActive := false }

/-- A live session belonging to `u1`. -/
def sessionLive : Session :=
  { id := "s1", userId := "u1", expiresAt := 1000 + sessionTtl }

/-- A deactivated session belonging to `u1`. -/
def sessionDead : Session :=
  { id := "s2", userId := "u1", isActive := false, expiresAt := 900 }

/-- The sample database. -/
def sampleDb : Db :=
  { users := [userActive, userOrgInactive]
    sessions := [sessionLive, sessionDead] }

/-! ### Helper lemmas -/

/-- Taking at most the shared prefix of two appended lists ignores the
tails. -/
theorem take_congr_of_prefix {pre a b : List Char} {n : Nat}
    (h : n ≤ pre.length) :
    (pre ++ a).take n = (pre ++ b).take n := by
  rw [List.take_append_of_le_length h, List.take_append_of_le_length h]

/-- The 72-byte bcrypt window of a refresh token depends only on the user
id: the window ends inside the serialized `"type":"refresh"` field
(payload byte 26), well before the `iat` digits (payload byte 33 onward)
and the signature, so every refresh token the service signs for a given
user compares equal against the same stored digest. -/
theorem bcryptSeen_mkRefreshJwt (s1 s2 uid : String) (n1 n2 : Nat) :
    bcryptSeen (mkRefreshJwt s1 n1 uid) = bcryptSeen (mkRefreshJwt s2 n2 uid) := by
  unfold bcryptSeen mkRefreshJwt payloadJson roleJson typeJson sessionJson
  dsimp only
  simp only [String.data_append]
  have hre :
      ∀ r : List Char,
        ("\x7b\"id\":\"" : String).data ++ (uid.data ++ (("\"," : String).data ++
          (("" : String).data ++ ((("\"type\":\"" : String).data ++
            (("refresh" : String).data ++ ("\"," : String).data)) ++
          (("" : String).data ++ (("\"iat\":" : String).data ++ r))))))
        = (("\x7b\"id\":\"" : String).data ++ uid.data
            ++ ("\",\"type\":\"refresh\",\"iat\":" : String).data) ++ r := by
    intro r
    simp [List.append_assoc]
  rw [hre, hre]
  apply take_congr_of_prefix
  simp only [List.length_append, List.length_cons, List.length_nil]
  omega

/-! ### C1 — `verifyRefreshToken` and the expected session id -/

/-- C1 counterexample.  The claim says `verifyRefreshToken` returns false
whenever the session expected for the presented token differs from
`expectedSessionId`.  Here a refresh token is produced by
`generateRefreshToken` for session `"s1"`, yet verifying it with expected
session `"s999"` still returns `true`: the refresh payload carries no
session id and the function never reads its `sessionId` parameter. -/
theorem verifyRefreshToken_session_mismatch_accepted :
    (generateRefreshToken sampleDb sampleSecret 2000 "u1" "s1").map
        (fun r => verifyRefreshToken r.2.2 sampleSecret 2500 r.1 "u1" "s999")
      = some true := by
  decide

/-- C1 (amended): `verifyRefreshToken` rejects on a subject (user id)
mismatch, but its result does not depend on the `expectedSessionId`
argument at all, so a session mismatch alone never causes rejection. -/
theorem verifyRefreshToken_subject_only
    (db : Db) (secret : String) (now : Nat) (t : Jwt) (uid sid sid' : String) :
    (t.payload.id ≠ uid → verifyRefreshToken db secret now t uid sid = false)
    ∧ verifyRefreshToken db secret now t uid sid
        = verifyRefreshToken db secret now t uid sid' := by
  constructor
  · intro hne
    by_cases hv : t.secret = secret ∧ now < t.payload.exp
    · simp [verifyRefreshToken, jwtVerify, hv, hne]
    · simp [verifyRefreshToken, jwtVerify, hv]
  · rfl

/-- C1 witness: the subject-mismatch half of
`verifyRefreshToken_subject_only` applied at a concrete input. -/
theorem verifyRefreshToken_subject_only_witness :
    verifyRefreshToken sampleDb sampleSecret 1500 tRefresh "u2" "s1" = false :=
  (verifyRefreshToken_subject_only sampleDb sampleSecret 1500 tRefresh
    "u2" "s1" "s2").1 (by decide)

/-! ### C2 — rotation and the presented refresh token -/

/-- The database after rotating user `u1`'s refresh token at time 1200
(a different second than the presented token's issuance at 1000). -/
def dbAfterRotation : Db :=
  updateUserRow sampleDb "u1" (fun u =>
    { u with
      refreshTokenHash := some (bcryptHashToken (mkRefreshJwt sampleSecret 1200 "u1"))
      refreshTokenExpiresAt := some (1200 + refreshTtl) })

/-- C2 failing input, evaluated.  The token `tRefresh` (issued at 1000)
is used in a successful refresh at time 1200; `generateRefreshToken`
signs a *different* token and overwrites the stored digest with its hash
— yet the old token still passes `verifyRefreshToken` at time 1300:
bcrypt compares only the first 72 bytes of the token string, which every
refresh token of this user shares, so rotation never makes the presented
token's comparison fail.  The spec (P1, E2E scenario B) requires the
replay to be rejected; the code accepts it. -/
theorem rotated_refresh_token_still_accepted :
    verifyRefreshToken sampleDb sampleSecret 1200 tRefresh "u1" "s1" = true
    ∧ generateRefreshToken sampleDb sampleSecret 1200 "u1" "s1"
      = some (mkRefreshJwt sampleSecret 1200 "u1", 1200 + refreshTtl, dbAfterRotation)
    ∧ mkRefreshJwt sampleSecret 1200 "u1" ≠ tRefresh
    ∧ verifyRefreshToken dbAfterRotation sampleSecret 1300 tRefresh "u1" "s1" = true := by
  refine ⟨by decide, by decide, by decide, by decide⟩

/-! ### C6 — persisted expiry is enforced -/

/-- C6: whenever the user row's persisted `refreshTokenExpiresAt` has
passed, `verifyRefreshToken` returns false — for every presented token,
in particular one whose own signature and embedded `exp` are still
valid. -/
theorem verifyRefreshToken_persisted_expiry
    (db : Db) (secret : String) (now : Nat) (t : Jwt) (uid sid : String)
    (u : User) (e : Nat)
    (hu : findUserById db uid = some u)
    (he : u.refreshTokenExpiresAt = some e) (hlt : e < now) :
    verifyRefreshToken db secret now t uid sid = false := by
  have hp : persistedExpired u.refreshTokenExpiresAt now = true := by
    simp [persistedExpired, he, hlt]
  unfold verifyRefreshToken
  split
  · rfl
  · split
    · rfl
    · simp only [hu]
      split
      · rfl
      · simp [hp]

/-- A copy of the active user whose persisted refresh expiry is already
in the past while the stored digest still matches `tRefresh`. -/
def userStaleExpiry : User :=
  { userActive with refreshTokenExpiresAt := some 500 }

/-- A database holding only `userStaleExpiry`. -/
def dbStale : Db :=
  { users := [userStaleExpiry], sessions := [] }

/-- C6 witness: at time 2000 the token itself still verifies
cryptographically (its own `exp` is far in the future) and its digest is
the stored one, yet `verifyRefreshToken` rejects because the persisted
expiry (500) has passed. -/
theorem verifyRefreshToken_persisted_expiry_witness :
    (jwtVerify tRefresh sampleSecret 2000).isSome = true
    ∧ userStaleExpiry.refreshTokenHash = some (bcryptHashToken tRefresh)
    ∧ verifyRefreshToken dbStale sampleSecret 2000 tRefresh "u1" "s1" = false :=
  ⟨by decide, by decide,
    verifyRefreshToken_persisted_expiry dbStale sampleSecret 2000 tRefresh "u1" "s1"
      userStaleExpiry 500 (by decide) (by decide) (by decide)⟩

/-! ### C9 — one stored hash per user -/

/-- C9 counterexample.  Two *distinct* refresh tokens of the same user —
issued at different seconds, conceptually to the user's two sessions —
both pass `verifyRefreshToken` at the same instant against the single
stored digest: bcrypt sees only the first 72 bytes of either token, and
those are identical for every refresh token of the user.  So more than
one refresh token per user passes at once, and a login/refresh on one
session does not make the other session's token fail. -/
theorem two_distinct_refresh_tokens_both_pass :
    tRefresh ≠ mkRefreshJwt sampleSecret 900 "u1"
    ∧ verifyRefreshToken sampleDb sampleSecret 1500 tRefresh "u1" "s1" = true
    ∧ verifyRefreshToken sampleDb sampleSecret 1500
        (mkRefreshJwt sampleSecret 900 "u1") "u1" "s2" = true := by
  refine ⟨by decide, by decide, by decide⟩

/-- C9 (amended): the refresh digest lives on the single User row, so
verification is session-blind — and, because bcrypt's 72-byte window
never reaches the `iat`/`exp` claims, it cannot even distinguish the
user's token instances: any two refresh tokens the service signed for
the same user verify identically at every instant at which both are
within their own embedded expiry, whatever sessions they were issued to
and whatever session ids the caller expects.  In particular a login or
refresh on one session never invalidates another session's token while
the user row holds any live digest. -/
theorem verifyRefreshToken_session_blind
    (db : Db) (secret : String) (now : Nat) (uid sid1 sid2 : String)
    (n1 n2 : Nat)
    (h1 : now < n1 + refreshTtl) (h2 : now < n2 + refreshTtl) :
    verifyRefreshToken db secret now (mkRefreshJwt secret n1 uid) uid sid1
      = verifyRefreshToken db secret now (mkRefreshJwt secret n2 uid) uid sid2 := by
  have hseen := bcryptSeen_mkRefreshJwt secret secret uid n1 n2
  have hv1 : jwtVerify (mkRefreshJwt secret n1 uid) secret now
      = some (mkRefreshJwt secret n1 uid).payload := by
    simp [jwtVerify, mkRefreshJwt, h1]
  have hv2 : jwtVerify (mkRefreshJwt secret n2 uid) secret now
      = some (mkRefreshJwt secret n2 uid).payload := by
    simp [jwtVerify, mkRefreshJwt, h2]
  unfold verifyRefreshToken
  simp only [hv1, hv2]
  rw [if_neg (by simp [mkRefreshJwt]), if_neg (by simp [mkRefreshJwt])]
  cases hu : findUserById db uid with
  | none => rfl
  | some u =>
      cases hh : u.refreshTokenHash with
      | none => simp [hh]
      | some stored =>
          simp only [hh]
          by_cases ha : u.isActive = true
          · by_cases hp : persistedExpired u.refreshTokenExpiresAt now = true
            · simp [ha, hp]
            · simp [ha, hp, bcryptCompare, hseen]
          · simp [ha]

/-- C9 witness: the session-blindness theorem applied at a concrete
state — the two tokens of the counterexample verify identically. -/
theorem verifyRefreshToken_session_blind_witness :
    verifyRefreshToken sampleDb sampleSecret 1500
        (mkRefreshJwt sampleSecret 1000 "u1") "u1" "s1"
      = verifyRefreshToken sampleDb sampleSecret 1500
        (mkRefreshJwt sampleSecret 900 "u1") "u1" "s2" :=
  verifyRefreshToken_session_blind sampleDb sampleSecret 1500 "u1" "s1" "s2"
    1000 900 (by decide) (by decide)

/-! ### C3 — session gating in the middleware -/

/-- An access token for `u1` that references the deactivated session
`s2`. -/
def tAccessDead : Jwt :=
  generateAccessToken sampleSecret 1000 "u1" .RESEARCHER (some "s2")

/-- C3 counterexample.  `tAccessDead` has a valid signature and unexpired
claims and references session `s2`, which is deactivated in `sampleDb`,
yet the `authenticate` middleware (used on `/logout`, `/sessions` and the
program/report routes) passes it through: it never consults the session
store, so a dead session still authorizes those requests. -/
theorem authenticate_passes_dead_session :
    sessionStillLive sampleDb "s2" 1100 = false
    ∧ tAccessDead.payload.sessionId = some "s2"
    ∧ authenticate sampleSecret 1100 (some tAccessDead)
      = .next tAccessDead.payload := by
  refine ⟨by decide, by decide, by decide⟩

/-- C3 (amended): the `authenticateToken` middleware does gate on the
session: whenever the verified payload references a session that is
missing, deactivated, or past its expiry, the request is rejected with a
401.  The `authenticate` middleware performs no such check (see the
counterexample). -/
theorem authenticateToken_rejects_dead_session
    (db : Db) (secret : String) (now : Nat) (t : Jwt) (hdr : Option Jwt)
    (p : JwtPayload) (s : String)
    (hv : jwtVerify t secret now = some p)
    (hs : p.sessionId = some s)
    (hdead : sessionStillLive db s now = false) :
    authenticateToken db secret now (some t) hdr
      = .reject 401 "Session expired or invalid" := by
  simp [authenticateToken, Option.or, hv, hs, hdead]

/-- C3 witness: `authenticateToken` rejecting the concrete dead-session
token. -/
theorem authenticateToken_rejects_dead_session_witness :
    authenticateToken sampleDb sampleSecret 1100 (some tAccessDead) none
      = .reject 401 "Session expired or invalid" :=
  authenticateToken_rejects_dead_session sampleDb sampleSecret 1100 tAccessDead
    none tAccessDead.payload "s2" (by decide) (by decide) (by decide)

/-! ### C4 — the token-kind discriminator -/

/-- C4 counterexample.  `tRefresh` carries kind `"refresh"`, yet the
per-request authorization path (`authenticateToken`) accepts it: the
middleware verifies the signature with the shared secret and never
inspects `decoded.type`, and since refresh payloads carry no session id
the session check is skipped as well. -/
theorem authenticateToken_accepts_refresh_kind :
    tRefresh.payload.type = some "refresh"
    ∧ authenticateToken sampleDb sampleSecret 1500 (some tRefresh) none
      = .allow "u1" "res@test.com" .RESEARCHER none := by
  refine ⟨by decide, by decide⟩

/-- C4 (amended): `verifyAccessToken` itself does reject every token
whose kind discriminator is not `"access"`; the middlewares, which call
`jwt.verify` directly instead of `verifyAccessToken`, do not (see the
counterexample). -/
theorem verifyAccessToken_rejects_non_access_kind
    (secret : String) (now : Nat) (t : Jwt)
    (hk : t.payload.type ≠ some "access") :
    verifyAccessToken secret now t = none := by
  unfold verifyAccessToken
  cases hv : jwtVerify t secret now with
  | none => rfl
  | some decoded =>
      have hd : decoded = t.payload := by
        unfold jwtVerify at hv
        split at hv
        · injection hv with h; exact h.symm
        · exact absurd hv (by simp)
      simp [hd, hk]

/-- C4 witness: the refresh token is rejected by `verifyAccessToken` even
while it is fresh and correctly signed. -/
theorem verifyAccessToken_rejects_non_access_kind_witness :
    verifyAccessToken sampleSecret 1500 tRefresh = none :=
  verifyAccessToken_rejects_non_access_kind sampleSecret 1500 tRefresh (by decide)

/-! ### C5 — role mismatch is indistinguishable from a wrong password -/

/-- C5: on the researcher login route (the wrapper sets
`userType = RESEARCHER`), an existing user whose stored role is
ORGANIZATION receives exactly the 401 `"Invalid email or password"`
failure that a correct-role user with a wrong password receives — same
status, same single-field error body. -/
theorem researcher_route_role_mismatch_indistinguishable
    (db : Db) (secret : String) (now : Nat)
    (e1 p1 e2 p2 sid1 sid2 : String) (m1 m2 : SessionMeta)
    (u1 u2 : User) (ph : String)
    (h1 : findUserByEmail db e1 = some u1) (hr1 : u1.role = .ORGANIZATION)
    (h2 : findUserByEmail db e2 = some u2) (hr2 : u2.role = .RESEARCHER)
    (ha2 : u2.isActive = true) (hph : u2.passwordHash = some ph)
    (hbad : bcryptComparePw p2 ph = false) :
    (loginWithRole db secret now e1 p1 .RESEARCHER sid1 m1).1
      = .failure 401 "Invalid email or password"
    ∧ (loginWithRole db secret now e2 p2 .RESEARCHER sid2 m2).1
      = (loginWithRole db secret now e1 p1 .RESEARCHER sid1 m1).1 := by
  refine ⟨?_, ?_⟩
  · simp [loginWithRole, h1, hr1]
  · simp [loginWithRole, h1, hr1, h2, hr2, ha2, hph, hbad]

/-- C5 witness: the inactive organization account logging in through the
researcher route versus the active researcher with a wrong password, on
the sample database. -/
theorem researcher_route_role_mismatch_witness :
    (loginWithRole sampleDb sampleSecret 3000 "org@test.com" "whatever"
        .RESEARCHER "sX" {}).1
      = .failure 401 "Invalid email or password"
    ∧ (loginWithRole sampleDb sampleSecret 3000 "res@test.com" "WrongPass"
        .RESEARCHER "sY" {}).1
      = (loginWithRole sampleDb sampleSecret 3000 "org@test.com" "whatever"
        .RESEARCHER "sX" {}).1 :=
  researcher_route_role_mismatch_indistinguishable sampleDb sampleSecret 3000
    "org@test.com" "whatever" "res@test.com" "WrongPass" "sX" "sY" {} {}
    userOrgInactive userActive (bcryptHashPw "Abc12345!")
    (by decide) (by decide) (by decide) (by decide) (by decide) (by decide)
    (by decide)

/-! ### C7 — pending-activation message for inactive organizations -/

/-- C7 counterexample.  Under the `login` controller of
`src/controllers/auth.controller.ts`, an existing ORGANIZATION user with
`isActive = false` and the *correct* password receives the generic 401
`"Invalid credentials"` — not a pending-activation message: that variant
folds the inactive case into the missing-user case. -/
theorem loginPlain_org_inactive_generic :
    userOrgInactive.role = .ORGANIZATION
    ∧ userOrgInactive.isActive = false
    ∧ bcryptComparePw "Orgpass1!" (bcryptHashPw "Orgpass1!") = true
    ∧ (loginPlain sampleDb sampleSecret 3000 "org@test.com" "Orgpass1!"
        "sW" {}).1
      = .failure 401 "Invalid credentials" := by
  refine ⟨by decide, by decide, by decide, by decide⟩

/-- C7 (amended): under the role-checking `login` controller
(`src/unnamed/part_001`), a login attempt through the organization route
by an ORGANIZATION user whose active flag is false yields the distinct
401 pending-activation message.  The `auth.controller.ts` variant, and
attempts through routes asserting a different role, return the generic
invalid-credentials message instead (see the counterexample). -/
theorem loginWithRole_org_inactive_pending
    (db : Db) (secret : String) (now : Nat) (e pw sid : String)
    (m : SessionMeta) (u : User)
    (hu : findUserByEmail db e = some u)
    (hr : u.role = .ORGANIZATION) (hi : u.isActive = false) :
    (loginWithRole db secret now e pw .ORGANIZATION sid m).1
      = .failure 401 "Account pending activation. Please wait for admin approval." := by
  simp [loginWithRole, hu, hr, hi]

/-- C7 witness: the pending-activation branch taken on the sample
database. -/
theorem loginWithRole_org_inactive_pending_witness :
    (loginWithRole sampleDb sampleSecret 3000 "org@test.com" "Orgpass1!"
        .ORGANIZATION "sZ" {}).1
      = .failure 401 "Account pending activation. Please wait for admin approval." :=
  loginWithRole_org_inactive_pending sampleDb sampleSecret 3000 "org@test.com"
    "Orgpass1!" "sZ" {} userOrgInactive (by decide) (by decide) (by decide)

/-! ### C8 — logout without an identity is a no-op success -/

/-- C8: when the request context carries no resolved user id or session
id (`userId && sessionId` falsy), `logout` performs no session or token
mutation — the database is returned unchanged — and still responds 200
with the success message; in particular a second logout in a row cannot
throw or 500 merely because the identity is gone. -/
theorem logout_without_identity_noop
    (db : Db) (now : Nat) (r : Option ReqUser)
    (h : hasIdentity r = false) :
    logout db now r = (.ok 200 "Logged out successfully", db) := by
  unfold logout
  rw [h]
  simp

/-- C8 witness: a logout with no authenticated context on the sample
database. -/
theorem logout_without_identity_noop_witness :
    logout sampleDb 4000 none = (.ok 200 "Logged out successfully", sampleDb) :=
  logout_without_identity_noop sampleDb 4000 none (by decide)

/-! ### C10 — a rejected refresh mutates nothing -/

/-- C10: whenever the `refreshToken` handler rejects with a 401 (missing
cookie, missing claims, dead session, failed `verifyRefreshToken`, or
missing/inactive user), the returned database equals the input database:
the stored refresh hash and expiry and the session's `lastSeen` are
untouched, because every 401 exit precedes the first write. -/
theorem refresh_reject_leaves_db_unchanged
    (db : Db) (secret : String) (now : Nat) (cookie : Option Jwt)
    (out : RefreshOutcome) (db' : Db) (msg : String)
    (heq : refreshTokenHandler db secret now cookie = (out, db'))
    (hmsg : out = .failure 401 msg) :
    db' = db := by
  subst hmsg
  unfold refreshTokenHandler at heq
  dsimp only [] at heq
  repeat' split at heq
  all_goals simp_all

/-- C10 witness: a refresh call with no cookie is rejected 401 and leaves
the sample database unchanged. -/
theorem refresh_reject_leaves_db_unchanged_witness :
    refreshTokenHandler sampleDb sampleSecret 5 none
      = (.failure 401 "Refresh token not found", sampleDb)
    ∧ (refreshTokenHandler sampleDb sampleSecret 5 none).2 = sampleDb :=
  ⟨rfl,
    refresh_reject_leaves_db_unchanged sampleDb sampleSecret 5 none
      (.failure 401 "Refresh token not found") sampleDb
      "Refresh token not found" rfl rfl⟩

end BugKhoji
